import Mathlib

/-
Shallow embedding of the meetingAutomation core (meeting_manager.py and
platform_handlers.py) and proofs about its meeting store, scheduler and
platform-handler join flow.

Conventions used throughout:
  * instants (datetime) are a clock reading in seconds together with a
    timezone-awareness flag (PyDateTime); every property below is stated
    at second precision;
  * time spans (timedelta) are their total_seconds value (Rat), which is
    exact for the microsecond-granular spans Python's timedelta can hold;
  * fallible Python code is Option-valued, `none` standing for a raised
    exception at the modelled call site.
-/

/-- Enum PlatformType (platform_handlers.py 22-26). -/
inductive PlatformType where
  | ZOOM
  | GOOGLE_MEET
  | TEAMS
deriving DecidableEq, Repr

/-- The .value of each enum member (platform_handlers.py 24-26). -/
def PlatformType.value : PlatformType → String
  | .ZOOM => "zoom"
  | .GOOGLE_MEET => "google_meet"
  | .TEAMS => "teams"

/-- A datetime.datetime value: its clock reading in seconds (the
precision every claim is stated at) and whether it carries a tzinfo
(timezone-aware) or not (naive). Comparing an aware datetime with a naive
one raises TypeError in Python; datetime.datetime.now() is naive. -/
structure PyDateTime where
  seconds : Int
  aware : Bool
deriving DecidableEq, Repr

/-- JSON values as written by json.dump and read by json.load in
save_meetings/load_meetings. `time t` models an ISO-8601 datetime string by
the datetime it denotes: datetime.isoformat and datetime.fromisoformat are
mutually inverse — including the UTC-offset suffix, so awareness survives
the round trip — and a non-ISO string is a separate constructor (`str`). -/
inductive JVal where
  | null
  | bool (b : Bool)
  | num (q : Rat)
  | str (s : String)
  | time (t : PyDateTime)
  | obj (fields : List (String × JVal))

/-- The platform field of a Meeting. load_meetings (meeting_manager.py
253-258) turns a recognized tag string into the PlatformType member via
getattr and otherwise keeps the raw deserialized value, so a loaded Meeting
can carry a non-enum platform. -/
inductive PlatformField where
  | enum (p : PlatformType)
  | raw (j : JVal)

/-- The Meeting dataclass (meeting_manager.py 16-28). -/
structure Meeting where
  id : String
  title : String
  platform : PlatformField
  start_time : PyDateTime
  duration : Rat
  url : Option String := none
  meeting_id : Option String := none
  password : Option String := none
  recurring : Bool := false
  recurrence_pattern : Option String := none
  required_email : Option String := none

/-- str.upper() over the character sequence (ASCII view; the enum member
names are ASCII). -/
def pyUpper (s : String) : String := ⟨s.data.map Char.toUpper⟩

/-- hasattr/getattr tag lookup of load_meetings (meeting_manager.py 256):
the tag, uppercased, must name an enum member. -/
def platformFromTag (s : String) : Option PlatformType :=
  if pyUpper s = "ZOOM" then some .ZOOM
  else if pyUpper s = "GOOGLE_MEET" then some .GOOGLE_MEET
  else if pyUpper s = "TEAMS" then some .TEAMS
  else none

/-- Serialization of an optional string field: Python None becomes JSON
null (save_meetings, meeting_manager.py 226-238). -/
def optStrJVal : Option String → JVal
  | some s => .str s
  | none => .null

/-- save_meetings' platform field (meeting_manager.py 229): the enum's
.value when the platform is an Enum, the raw value otherwise. -/
def PlatformField.toJVal : PlatformField → JVal
  | .enum p => .str p.value
  | .raw j => j

/-- One meeting's record in meetings.json, exactly the dict literal of
save_meetings (meeting_manager.py 226-238). -/
def recordJVal (m : Meeting) : JVal :=
  .obj [("id", .str m.id),
        ("title", .str m.title),
        ("platform", m.platform.toJVal),
        ("start_time", .time m.start_time),
        ("duration", .num m.duration),
        ("url", optStrJVal m.url),
        ("meeting_id", optStrJVal m.meeting_id),
        ("password", optStrJVal m.password),
        ("recurring", .bool m.recurring),
        ("recurrence_pattern", optStrJVal m.recurrence_pattern),
        ("required_email", optStrJVal m.required_email)]

/-- save_meetings (meeting_manager.py 221-241): the JSON document is a
mapping from each store key to that meeting's record. -/
def saveMeetings (store : List (String × Meeting)) : JVal :=
  .obj (store.map fun kv => (kv.1, recordJVal kv.2))

/-- data.get(k): a missing key and an explicit JSON null both give Python
None, modelled uniformly as JVal.null. -/
def jget (fields : List (String × JVal)) (k : String) : JVal :=
  match fields.lookup k with
  | some v => v
  | none => .null

/-- An optional-string field on load: a JSON string, else None. Non-string
junk lands in the unchecked dataclass field in Python; no code path reads
these fields before a join attempt and no claim distinguishes junk from
None, so it is collapsed to none here. -/
def optStr : JVal → Option String
  | .str s => some s
  | _ => none

/-- A required-string field on load (id, title): collapsed to "" for
non-string junk, same rationale as optStr. -/
def strD : JVal → String
  | .str s => s
  | _ => ""

/-- data.get("recurring", False): a JSON bool, else the default False
(non-bool junk collapsed, same rationale as optStr). -/
def boolD : JVal → Bool
  | .bool b => b
  | _ => false

/-- timedelta(seconds=x) (meeting_manager.py 265): accepts numbers (and
bools, which are ints in Python); None or a string raises TypeError. -/
def secondsNum : JVal → Option Rat
  | .num q => some q
  | .bool b => some (if b then 1 else 0)
  | _ => none

/-- datetime.fromisoformat (meeting_manager.py 264): succeeds exactly on an
ISO datetime string (JVal.time), restoring the tzinfo when the string has
an offset suffix; None or a non-ISO string raises. -/
def isoTime : JVal → Option PyDateTime
  | .time t => some t
  | _ => none

/-- The body of the load_meetings loop for one record (meeting_manager.py
252-272). `none` models a raised exception: a non-mapping record, an
unparseable start_time, or a non-numeric duration. The platform conversion
(253-258) never raises: an unrecognized or non-string value is kept raw. -/
def parseRecord : JVal → Option Meeting
  | .obj fields =>
    let platform : PlatformField :=
      match jget fields "platform" with
      | .str s =>
        match platformFromTag s with
        | some p => .enum p
        | none => .raw (.str s)
      | j => .raw j
    match isoTime (jget fields "start_time"), secondsNum (jget fields "duration") with
    | some t, some q =>
      some { id := strD (jget fields "id"),
             title := strD (jget fields "title"),
             platform := platform,
             start_time := t,
             duration := q,
             url := optStr (jget fields "url"),
             meeting_id := optStr (jget fields "meeting_id"),
             password := optStr (jget fields "password"),
             recurring := boolD (jget fields "recurring"),
             recurrence_pattern := optStr (jget fields "recurrence_pattern"),
             required_email := optStr (jget fields "required_email") }
    | _, _ => none
  | _ => none

/-- The load loop (meeting_manager.py 252-278). The whole loop sits under a
single try/except whose handler resets self.meetings to {} (line 283), so
an exception from any one record discards every record, including the ones
already inserted. After inserting a record the loop re-submits it to the
scheduler: `if meeting.recurring or meeting.start_time >
datetime.datetime.now(): self.schedule_meeting(meeting)` (276-278). For a
timezone-AWARE start_time this step raises TypeError inside the same try
on either branch — the line-277 comparison is aware-vs-naive, and when
short-circuited by a truthy recurring flag, schedule_meeting's own
`join_time < datetime.datetime.now()` (line 163) is — so an aware record
also empties the whole load. For a naive start_time neither comparison
raises and the step only mutates the job registry, which is not part of
this function's value, so the loaded content does not depend on the
current time. -/
def loadLoop : List (String × JVal) → List (String × Meeting) → List (String × Meeting)
  | [], acc => acc
  | (k, d) :: rest, acc =>
    match parseRecord d with
    | some m =>
      if m.start_time.aware then []
      else loadLoop rest (acc ++ [(k, m)])
    | none => []

/-- load_meetings (meeting_manager.py 243-283), store-content part: the
self.meetings mapping it produces from the parsed document. A top-level
document that is not a mapping makes .items() raise, caught by the same
except, giving {}; a top-level json.load failure or a missing file likewise
gives {} and is modelled by any non-obj input. -/
def loadMeetings : JVal → List (String × Meeting)
  | .obj entries => loadLoop entries []
  | _ => []

/-
Platform-handler layer (platform_handlers.py). A join attempt runs on a
fresh handler instance from get_handler (806-829) and interacts with
external collaborators (WebDriver surface, keyring, the PyQt mismatch
dialog, Popen); their responses for the attempt are an explicit
environment. Python truthiness: where the code tests a string with
`if x:`, None and "" behave alike; `truthy` collapses "" to none at
those test sites.
-/

/-- The three buttons of the account-mismatch QMessageBox
(platform_handlers.py 332-353): Yes = "Switch Account",
No = "Use Current Account", Cancel. -/
inductive SwitchDecision where
  | switchAccount
  | keepCurrent
  | abort
deriving DecidableEq, Repr

/-- Collaborator responses for one join attempt.
  * appInstalled: detect_installed_apps entry for this platform (75-92);
  * currentEmail: the _get_logged_in_email probe; none covers both no
    account and a falsy/failed probe;
  * decision: the mismatch-dialog outcome (341-353);
  * credential: keyring.get_password for the handler's service; none
    covers both no stored secret and a falsy one (`if not password`);
  * logoutOk / primaryLoginOk / googleLoginOk: outcomes of the _logout,
    primary sign-in, and Zoom Google-fallback UI flows;
  * browserJoinOk: whether the required join-button step of the browser
    join succeeds (Teams 795-798, Meet 969-986);
  * appLaunchOk: whether the native app launch raises (516-537, 706-719). -/
structure HandlerEnv where
  appInstalled : Bool
  currentEmail : Option String
  decision : SwitchDecision
  credential : String → Option String
  logoutOk : Bool
  primaryLoginOk : Bool
  googleLoginOk : Bool
  browserJoinOk : Bool
  appLaunchOk : Bool

/-- Observable actions of a join attempt, in program order. -/
inductive HEvent where
  | setupDriver
  | cleanupDriver
  | preGrant (url : String)
  | decisionPrompt (current required : String)
  | navSignin (p : PlatformType)
  | navGoogleAuth
  | credMissing (email : String)
  | navLogout
  | navMeeting (target : String)
  | appLaunch (p : PlatformType)
deriving DecidableEq, Repr

/-- Handler-owned session state: whether the WebDriver handle exists
(self.driver) and whether permissions were pre-granted
(self.permissions_granted). -/
structure HState where
  driver : Bool
  permsGranted : Bool
deriving DecidableEq, Repr

/-- `if x:` on an optional string: None and "" are both falsy. -/
def truthy : Option String → Option String
  | some s => if s = "" then none else some s
  | none => none

/-- Models _setup_driver (150-185): create the WebDriver once per handler. -/
def setupDriver (st : HState) : HState × List HEvent :=
  if st.driver then (st, [])
  else ({ st with driver := true }, [.setupDriver])

/-- Models _cleanup (187-192): quit and drop the driver if present. -/
def cleanupDriver (st : HState) : HState × List HEvent :=
  if st.driver then ({ st with driver := false }, [.cleanupDriver])
  else (st, [])

/-- Models _pre_grant_permissions (214-236): one pre-authorization visit per
handler lifetime; its Boolean result is ignored by every caller. -/
def preGrantPermissions (u : String) (st : HState) : HState × List HEvent :=
  if st.permsGranted then (st, [])
  else ({ st with permsGranted := true }, [.preGrant u])

/-- self.platform_url of each handler (430, 598, 837). -/
def platformUrl : PlatformType → String
  | .ZOOM => "https://zoom.us"
  | .TEAMS => "https://teams.microsoft.com"
  | .GOOGLE_MEET => "https://meet.google.com"

/-- The pre-grant target used inside each _join_via_browser
(546, 728, 931). -/
def preGrantUrl : PlatformType → String
  | .ZOOM => "https://zoom.us/wc/join"
  | .TEAMS => "https://teams.microsoft.com"
  | .GOOGLE_MEET => "https://meet.google.com"

/-- Models _handle_login of each handler (Zoom 460-503, Teams 609-686, Meet
848-903): the keyring lookup comes first and a missing secret returns
False with no navigation at all; otherwise the sign-in flow is driven,
Zoom falling back to sign_in_with_google when the primary flow fails. -/
def handleLogin (p : PlatformType) (email : String) (env : HandlerEnv)
    (st : HState) : Bool × HState × List HEvent :=
  match env.credential email with
  | none => (false, st, [.credMissing email])
  | some _ =>
    let s1 := setupDriver st
    match p with
    | .ZOOM =>
      if env.primaryLoginOk then (true, s1.1, s1.2 ++ [.navSignin .ZOOM])
      else (env.googleLoginOk, s1.1, s1.2 ++ [.navSignin .ZOOM, .navGoogleAuth])
    | .TEAMS => (env.primaryLoginOk, s1.1, s1.2 ++ [.navSignin .TEAMS])
    | .GOOGLE_MEET => (env.primaryLoginOk, s1.1, s1.2 ++ [.navSignin .GOOGLE_MEET])

/-- Models _logout (359-382): navigate to the logout surface and click sign-out;
any failure is caught and returned as False. -/
def logoutSession (env : HandlerEnv) (st : HState) : Bool × HState × List HEvent :=
  let s1 := setupDriver st
  (env.logoutOk, s1.1, s1.2 ++ [.navLogout])

/-- Models _handle_account_switch (317-357): present the mismatch dialog; Yes
logs out then logs in with the required email, No keeps the current
account (True), Cancel returns False. -/
def handleAccountSwitch (p : PlatformType) (current required : String)
    (env : HandlerEnv) (st : HState) : Bool × HState × List HEvent :=
  match env.decision with
  | .switchAccount =>
    let lo := logoutSession env st
    if lo.1 then
      let li := handleLogin p required env lo.2.1
      (li.1, li.2.1, .decisionPrompt current required :: (lo.2.2 ++ li.2.2))
    else (false, lo.2.1, [.decisionPrompt current required] ++ lo.2.2)
  | .keepCurrent => (true, st, [.decisionPrompt current required])
  | .abort => (false, st, [.decisionPrompt current required])

/-- str.lower() over the character sequence (ASCII view, mirroring
pyUpper). -/
def pyLower (s : String) : String := ⟨s.data.map Char.toLower⟩

/-- verify_account_match (298-315): probe the logged-in email; none means
a normal login, a case-insensitive mismatch raises the account-switch
dialog, a match proceeds. -/
def verifyAccountMatch (p : PlatformType) (required : String)
    (env : HandlerEnv) (st : HState) : Bool × HState × List HEvent :=
  match env.currentEmail with
  | none => handleLogin p required env st
  | some current =>
    if pyLower current = pyLower required then (true, st, [])
    else handleAccountSwitch p current required env st

/-- Models _join_via_browser of each handler (Zoom 539-590, Teams 721-804, Meet
924-992). Zoom: navigate to the URL, or to the join-by-id URL; every later
UI step is individually try/pass (optional), so the attempt returns True
once a navigation target exists, and with neither url nor meeting_id the
string concatenation with None raises TypeError, caught by the outer
try, giving False. Teams: a URL is required ("Teams meetings require a URL
to join via browser" → False); the Join-button click is a required step,
outcome env.browserJoinOk. Meet: URL or code URL, else False; the Join
button is required. -/
def joinViaBrowser (p : PlatformType) (url mid _pwd : Option String)
    (env : HandlerEnv) (st : HState) : Bool × HState × List HEvent :=
  let s1 := setupDriver st
  let s2 := preGrantPermissions (preGrantUrl p) s1.1
  let pre := s1.2 ++ s2.2
  match p with
  | .ZOOM =>
    match truthy url with
    | some u => (true, s2.1, pre ++ [.navMeeting u])
    | none =>
      match truthy mid with
      | some m => (true, s2.1, pre ++ [.navMeeting ("https://zoom.us/wc/join/" ++ m)])
      | none => (false, s2.1, pre)
  | .TEAMS =>
    match truthy url with
    | some u => (env.browserJoinOk, s2.1, pre ++ [.navMeeting u])
    | none => (false, s2.1, pre)
  | .GOOGLE_MEET =>
    match truthy url with
    | some u => (env.browserJoinOk, s2.1, pre ++ [.navMeeting u])
    | none =>
      match truthy mid with
      | some m => (env.browserJoinOk, s2.1, pre ++ [.navMeeting ("https://meet.google.com/" ++ m)])
      | none => (false, s2.1, pre)

/-- Models _join_via_app (Zoom 516-537, Teams 706-719, Meet 920-922). Meet always
delegates to the browser. Zoom launches with a URL, else with the meeting
id; with neither it skips the launch and still returns True. Teams only
launches with a URL, and returns True either way. A launch exception falls
back to _join_via_browser. -/
def joinViaApp (p : PlatformType) (url mid pwd : Option String)
    (env : HandlerEnv) (st : HState) : Bool × HState × List HEvent :=
  match p with
  | .GOOGLE_MEET => joinViaBrowser .GOOGLE_MEET url mid pwd env st
  | .ZOOM =>
    match truthy url, truthy mid with
    | none, none => (true, st, [])
    | _, _ =>
      if env.appLaunchOk then (true, st, [.appLaunch .ZOOM])
      else joinViaBrowser .ZOOM url mid pwd env st
  | .TEAMS =>
    match truthy url with
    | none => (true, st, [])
    | some _ =>
      if env.appLaunchOk then (true, st, [.appLaunch .TEAMS])
      else joinViaBrowser .TEAMS url mid pwd env st

/-- detect_installed_apps().get(self.platform_type, False)
(platform_handlers.py 402): the probe only knows zoom and teams, so
Google Meet is never detected as installed. -/
def appInstalledFor (p : PlatformType) (env : HandlerEnv) : Bool :=
  match p with
  | .GOOGLE_MEET => false
  | _ => env.appInstalled

/-- join_meeting (platform_handlers.py 394-422) on a fresh handler
instance (self.driver = None, self.permissions_granted = False,
self.use_browser = False): set up the driver, pre-grant permissions on the
platform URL, detect the app, then either the app path, or the browser
path on which verify_account_match's Boolean result is DISCARDED (line
411) before _join_via_browser runs; the finally block cleans the driver up
unless the native app owns the call. -/
def joinMeeting (p : PlatformType) (url mid pwd required_email : Option String)
    (env : HandlerEnv) : Bool × HState × List HEvent :=
  let st0 : HState := { driver := false, permsGranted := false }
  let s1 := setupDriver st0
  let s2 := preGrantPermissions (platformUrl p) s1.1
  let installed := appInstalledFor p env
  let body :=
    if installed then joinViaApp p url mid pwd env s2.1
    else
      match truthy required_email with
      | some req =>
        let v := verifyAccountMatch p req env s2.1
        let b := joinViaBrowser p url mid pwd env v.2.1
        (b.1, b.2.1, v.2.2 ++ b.2.2)
      | none => joinViaBrowser p url mid pwd env s2.1
  let fin := if installed then (body.2.1, ([] : List HEvent)) else cleanupDriver body.2.1
  (body.1, fin.1, s1.2 ++ s2.2 ++ body.2.2 ++ fin.2)

/-
Manager layer (meeting_manager.py): the meeting store, durable snapshot
writes, and the global `schedule` job registry driven by the scheduler
thread's run_pending loop.
-/

/-- One job of the `schedule` registry, created by
schedule.every().day.at(time_str).do(...).tag(meeting.id)
(meeting_manager.py 171-174): a DAILY repeating job carrying only a
time-of-day. time_str comes from strftime("%H:%M"), so the date and the
seconds of the intended join time are dropped; the library's initial
nextRun is today at that time if still ahead, else tomorrow. -/
structure SchedJob where
  tag : String
  atOfDay : Int
  nextRun : Int
deriving DecidableEq, Repr

/-- Manager state: self.meetings as an association list in insertion
order, the schedule registry's jobs, and a count of snapshot writes
(save_meetings calls) standing for the persisted-file rewrites. -/
structure MState where
  meetings : List (String × Meeting)
  jobs : List SchedJob
  saves : Nat

/-- Seconds per day, for the date arithmetic of the schedule library. -/
def secPerDay : Int := 86400

/-- schedule_meeting (meeting_manager.py 157-174): join_time is one minute
before start; a past join_time is not scheduled at all; otherwise a daily
job at join_time's %H:%M is registered (date_str, line 168, is computed
but never used). This models the naive-start registration path — the GUI
builds naive datetimes; an aware start_time would instead make the
line-163 comparison raise TypeError out of add_meeting after the persist,
and the aware behavior on the load path is modelled in loadLoop. -/
def scheduleMeeting (s : MState) (m : Meeting) (now : Int) : MState :=
  let joinTime := m.start_time.seconds - 60
  if joinTime < now then s
  else
    let atod := joinTime % secPerDay / 60 * 60
    let todayAt := now - now % secPerDay + atod
    let nextRun := if now < todayAt then todayAt else todayAt + secPerDay
    { s with jobs := s.jobs ++ [{ tag := m.id, atOfDay := atod, nextRun := nextRun }] }

/-- add_meeting (meeting_manager.py 44-51): an existing id returns False
before anything else; otherwise insert, save a snapshot, then schedule. -/
def addMeeting (s : MState) (m : Meeting) (now : Int) : Bool × MState :=
  if (s.meetings.lookup m.id).isSome then (false, s)
  else
    let s1 : MState :=
      { s with meetings := s.meetings ++ [(m.id, m)], saves := s.saves + 1 }
    (true, scheduleMeeting s1 m now)

/-- remove_meeting (meeting_manager.py 53-59): delete the key and save a
snapshot on a hit; a miss returns False with no state change and no
snapshot write. The registered job is NOT cancelled. -/
def removeMeeting (s : MState) (mid : String) : Bool × MState :=
  if (s.meetings.lookup mid).isSome then
    (true, { s with meetings := s.meetings.filter (fun kv => !(mid == kv.1)),
                    saves := s.saves + 1 })
  else (false, s)

/-- Observable actions of the manager's join path. `fired` marks the
schedule registry invoking a job's callback. -/
inductive MEvent where
  | fired (tag : String)
  | handlerObtained (p : PlatformType)
  | joinSucceeded (mid : String)
  | joinFailed (mid : String)
  | joinErrored (mid : String)
deriving DecidableEq, Repr

/-- join_meeting of the manager (meeting_manager.py 176-199): an id that is
not in self.meetings does nothing at all — no handler, no join, no state
change; otherwise get_handler plus handler.join_meeting run under a
try/except that only prints (get_handler raises on a raw, non-enum
platform, caught there). The store is never mutated on this path. -/
def managerJoin (s : MState) (mid : String) (env : HandlerEnv) :
    MState × List MEvent :=
  match s.meetings.lookup mid with
  | none => (s, [])
  | some m =>
    match m.platform with
    | .raw _ => (s, [.joinErrored mid])
    | .enum p =>
      let r := joinMeeting p m.url m.meeting_id m.password m.required_email env
      (s, [.handlerObtained p,
           if r.1 then .joinSucceeded mid else .joinFailed mid])

/-- One due job run by schedule.run_pending: the callback
(manager.join_meeting) is invoked and the library reschedules the job one
day later at its time-of-day; the job is never removed from the registry.
(The callback leaves the store unchanged, so its state output is the input
state.) -/
def runJob (s : MState) (j : SchedJob) (now : Int) (env : HandlerEnv) :
    SchedJob × List MEvent :=
  if j.nextRun ≤ now then
    let ev := (managerJoin s j.tag env).2
    let nextDayAt := now + secPerDay - (now + secPerDay) % secPerDay + j.atOfDay
    ({ j with nextRun := nextDayAt }, .fired j.tag :: ev)
  else (j, [])

/-- All jobs of one wake, in registry order. -/
def runPendingJobs (s : MState) (jobs : List SchedJob) (now : Int)
    (env : HandlerEnv) : List SchedJob × List MEvent :=
  match jobs with
  | [] => ([], [])
  | j :: rest =>
    let r := runJob s j now env
    let rr := runPendingJobs s rest now env
    (r.1 :: rr.1, r.2 ++ rr.2)

/-- One wake of the scheduler thread's loop (_scheduler_loop 215-219 →
schedule.run_pending): run every job whose nextRun has passed. -/
def runPending (s : MState) (now : Int) (env : HandlerEnv) :
    MState × List MEvent :=
  let r := runPendingJobs s s.jobs now env
  ({ s with jobs := r.1 }, r.2)

/-- The fresh manager state before any registration. -/
def emptyStore : MState := { meetings := [], jobs := [], saves := 0 }

/-- An environment in which every collaborator cooperates and no account
is required or logged in. -/
def envQuiet : HandlerEnv :=
  { appInstalled := false, currentEmail := none, decision := .keepCurrent,
    credential := fun _ => none, logoutOk := true, primaryLoginOk := true,
    googleLoginOk := true, browserJoinOk := true, appLaunchOk := true }

/- Association-list helper lemmas for the store. -/

theorem lookup_append_of_none {α β : Type} [BEq α] (a : α)
    (l1 l2 : List (α × β)) (h : l1.lookup a = none) :
    (l1 ++ l2).lookup a = l2.lookup a := by
  induction l1 with
  | nil => rfl
  | cons kv t ih =>
    obtain ⟨k, v⟩ := kv
    cases hak : a == k <;> simp [List.lookup, hak] at h ⊢
    · exact ih h

theorem filter_eq_nil_of_lookup_none {α β : Type} [BEq α] (a : α)
    (l : List (α × β)) (h : l.lookup a = none) :
    l.filter (fun kv => a == kv.1) = [] := by
  induction l with
  | nil => rfl
  | cons kv t ih =>
    obtain ⟨k, v⟩ := kv
    cases hak : a == k
    · simp only [List.lookup, hak] at h
      rw [List.filter_cons]
      simp only [hak, Bool.false_eq_true, if_false]
      exact ih h
    · simp [List.lookup, hak] at h

theorem lookup_filter_out {α β : Type} [BEq α] (a : α) (l : List (α × β)) :
    (l.filter fun kv => !(a == kv.1)).lookup a = none := by
  induction l with
  | nil => rfl
  | cons kv t ih =>
    obtain ⟨k, v⟩ := kv
    cases hak : a == k <;> simp [List.filter, hak, List.lookup, ih]

theorem scheduleMeeting_meetings (s : MState) (m : Meeting) (now : Int) :
    (scheduleMeeting s m now).meetings = s.meetings := by
  simp only [scheduleMeeting]
  split <;> rfl

/-- add_meeting's guard (meeting_manager.py 46-47): a present id returns
False with no state change at all. -/
theorem addMeeting_stop (s : MState) (m : Meeting) (now : Int)
    (h : (s.meetings.lookup m.id).isSome = true) :
    addMeeting s m now = (false, s) := by
  simp [addMeeting, h]

/-- Claim C7: calling Add twice with the same meeting makes the second
call return false and leave the state — store and job registry — exactly
as after the first call; from a state where the id was fresh, the store
then holds exactly one copy of the meeting. -/
theorem C7_add_idempotent (s : MState) (m : Meeting) (now : Int) :
    (addMeeting (addMeeting s m now).2 m now).1 = false ∧
    (addMeeting (addMeeting s m now).2 m now).2 = (addMeeting s m now).2 ∧
    (s.meetings.lookup m.id = none →
      ((addMeeting s m now).2.meetings.filter fun kv => m.id == kv.1).length = 1) := by
  cases hlk : s.meetings.lookup m.id with
  | some v =>
    have h1 : addMeeting s m now = (false, s) :=
      addMeeting_stop s m now (by rw [hlk]; rfl)
    refine ⟨?_, ?_, ?_⟩
    · rw [h1]; rw [show ((false, s) : Bool × MState).2 = s from rfl, h1]
    · rw [h1]; rw [show ((false, s) : Bool × MState).2 = s from rfl, h1]
    · intro habs
      exact absurd habs (by simp)
  | none =>
    have hm1 : (addMeeting s m now).2.meetings = s.meetings ++ [(m.id, m)] := by
      simp [addMeeting, hlk, scheduleMeeting_meetings]
    have hl1 : (addMeeting s m now).2.meetings.lookup m.id = some m := by
      rw [hm1, lookup_append_of_none m.id s.meetings _ hlk]
      simp [List.lookup]
    have hsec : addMeeting (addMeeting s m now).2 m now = (false, (addMeeting s m now).2) :=
      addMeeting_stop _ m now (by rw [hl1]; rfl)
    refine ⟨by rw [hsec], by rw [hsec], ?_⟩
    intro _
    rw [hm1, List.filter_append, filter_eq_nil_of_lookup_none m.id s.meetings hlk]
    simp [List.filter]

/-- Claim C7 witness: adding a concrete meeting twice to the empty store. -/
theorem C7_witness :
    (addMeeting (addMeeting emptyStore
        { id := "w7", title := "t", platform := .enum .ZOOM,
          start_time := ⟨3600, false⟩, duration := 60 } 0).2
        { id := "w7", title := "t", platform := .enum .ZOOM,
          start_time := ⟨3600, false⟩, duration := 60 } 0).1 = false ∧
    ((addMeeting emptyStore
        { id := "w7", title := "t", platform := .enum .ZOOM,
          start_time := ⟨3600, false⟩, duration := 60 } 0).2.meetings.filter
        fun kv => "w7" == kv.1).length = 1 :=
  ⟨(C7_add_idempotent emptyStore
      { id := "w7", title := "t", platform := .enum .ZOOM,
        start_time := ⟨3600, false⟩, duration := 60 } 0).1,
   (C7_add_idempotent emptyStore
      { id := "w7", title := "t", platform := .enum .ZOOM,
        start_time := ⟨3600, false⟩, duration := 60 } 0).2.2 rfl⟩

/-- Claim C9: the manager's join action for an id not in the store is a
complete no-op (no handler, no events, state untouched); and right after
any Remove of an id, joining that id is the same no-op — so a trigger
firing after Remove performs no join. -/
theorem C9_absent_join_noop :
    (∀ (s : MState) (mid : String) (env : HandlerEnv),
      s.meetings.lookup mid = none → managerJoin s mid env = (s, [])) ∧
    (∀ (s : MState) (mid : String) (env : HandlerEnv),
      managerJoin (removeMeeting s mid).2 mid env = ((removeMeeting s mid).2, [])) := by
  have base : ∀ (s : MState) (mid : String) (env : HandlerEnv),
      s.meetings.lookup mid = none → managerJoin s mid env = (s, []) := by
    intro s mid env h
    simp [managerJoin, h]
  refine ⟨base, ?_⟩
  intro s mid env
  apply base
  by_cases hp : (s.meetings.lookup mid).isSome
  · simp only [removeMeeting, hp, if_pos]
    exact lookup_filter_out mid s.meetings
  · simp only [removeMeeting, hp, if_neg, Bool.false_eq_true, not_false_eq_true]
    exact Option.not_isSome_iff_eq_none.mp hp

/-- Claim C9 witness: joining an unknown id in the empty store. -/
theorem C9_witness : managerJoin emptyStore "ghost9" envQuiet = (emptyStore, []) :=
  C9_absent_join_noop.1 emptyStore "ghost9" envQuiet rfl

/-- Claim C10: Remove of an absent id returns false and leaves the state
untouched, in particular the snapshot-write counter: the persisted file is
not rewritten. -/
theorem C10_remove_absent (s : MState) (mid : String)
    (h : s.meetings.lookup mid = none) :
    removeMeeting s mid = (false, s) := by
  simp [removeMeeting, h]

/-- Claim C10 witness: removing an unknown id from the empty store. -/
theorem C10_witness : removeMeeting emptyStore "ghost10" = (false, emptyStore) :=
  C10_remove_absent emptyStore "ghost10" rfl

/- Round-trip of the snapshot (claim C6). -/

/-- Whether a platform field is an actual enum member. -/
def PlatformField.isEnum : PlatformField → Bool
  | .enum _ => true
  | .raw _ => false

/-- A valid store state: every meeting's platform is a member of the
closed enum (the only states the registration path can build). -/
def storeValid (store : List (String × Meeting)) : Bool :=
  store.all fun kv => kv.2.platform.isEnum

/-- Whether every meeting's start_time is timezone-naive. -/
def storeNaive (store : List (String × Meeting)) : Bool :=
  store.all fun kv => !kv.2.start_time.aware

theorem optStr_optStrJVal (o : Option String) : optStr (optStrJVal o) = o := by
  cases o <;> rfl

/-- A record written by save_meetings parses back to the identical
meeting when its platform is an enum member. -/
theorem parseRecord_recordJVal (m : Meeting) (h : m.platform.isEnum = true) :
    parseRecord (recordJVal m) = some m := by
  obtain ⟨i, ti, pf, st, du, u, mi, pw, rc, rp, re⟩ := m
  cases pf with
  | raw j => simp [PlatformField.isEnum] at h
  | enum p =>
    cases p <;> cases u <;> cases mi <;> cases pw <;> cases rp <;> cases re <;> rfl

theorem loadLoop_save (store acc : List (String × Meeting))
    (hv : storeValid store = true) (hn : storeNaive store = true) :
    loadLoop (store.map fun kv => (kv.1, recordJVal kv.2)) acc = acc ++ store := by
  induction store generalizing acc with
  | nil => simp [loadLoop]
  | cons kv t ih =>
    have hkv : kv.2.platform.isEnum = true := by
      have := List.all_eq_true.mp hv
      exact this kv (by simp)
    have hnkv : kv.2.start_time.aware = false := by
      have := List.all_eq_true.mp hn kv (by simp)
      simpa using this
    have ht : storeValid t = true := by
      apply List.all_eq_true.mpr
      intro x hx
      exact List.all_eq_true.mp hv x (by simp [hx])
    have hnt : storeNaive t = true := by
      apply List.all_eq_true.mpr
      intro x hx
      exact List.all_eq_true.mp hn x (by simp [hx])
    obtain ⟨k, m⟩ := kv
    simp only [List.map_cons, loadLoop, parseRecord_recordJVal m hkv]
    simp only at hnkv
    simp only [hnkv, Bool.false_eq_true, if_false]
    rw [ih (acc ++ [(k, m)]) ht hnt]
    simp

/-- The spec's valid store of the aware-start scenario: one enum-platform
meeting whose persisted start_time carries a tzinfo, as ICS import
produces. -/
def c6Aware : List (String × Meeting) :=
  [("c6x", { id := "c6x", title := "imported", platform := .enum .ZOOM,
             start_time := ⟨7200, true⟩, duration := 900,
             url := some "https://zoom.us/j/1" })]

/-- Claim C6 counterexample: the round trip fails for a valid store with a
timezone-aware start time. The record saves and parses back fine, but the
in-loop rescheduling comparison `meeting.start_time >
datetime.datetime.now()` (meeting_manager.py 277) is aware-vs-naive and
raises TypeError inside the load try/except, so Load(Save(S)) is the
empty registry — the meeting id is lost, not reproduced. -/
theorem C6_counterexample :
    storeValid c6Aware = true ∧
    loadMeetings (saveMeetings c6Aware) = [] ∧
    c6Aware.map Prod.fst = ["c6x"] := by
  exact ⟨rfl, rfl, rfl⟩

/-- Claim C6 amended: for every valid store state whose start times are
all timezone-naive, loading the saved snapshot reproduces the store
exactly — same meeting ids, same platform per meeting, same start times
and durations (stored as an ISO datetime string and a numeric seconds
count). A timezone-aware start time instead makes the in-loop
rescheduling raise and Load falls back to the empty registry. -/
theorem C6_round_trip_naive (store : List (String × Meeting))
    (hv : storeValid store = true) (hn : storeNaive store = true) :
    loadMeetings (saveMeetings store) = store := by
  simp only [saveMeetings, loadMeetings]
  rw [loadLoop_save store [] hv hn]
  simp

/-- Claim C6 witness: round trip of a concrete naive two-meeting store. -/
theorem C6_witness :
    loadMeetings (saveMeetings
      [("w6a", { id := "w6a", title := "a", platform := .enum .TEAMS,
                 start_time := ⟨7200, false⟩, duration := 900,
                 url := some "https://teams.microsoft.com/l/x" }),
       ("w6b", { id := "w6b", title := "b", platform := .enum .GOOGLE_MEET,
                 start_time := ⟨9000, false⟩, duration := 1800, recurring := true })]) =
      [("w6a", { id := "w6a", title := "a", platform := .enum .TEAMS,
                 start_time := ⟨7200, false⟩, duration := 900,
                 url := some "https://teams.microsoft.com/l/x" }),
       ("w6b", { id := "w6b", title := "b", platform := .enum .GOOGLE_MEET,
                 start_time := ⟨9000, false⟩, duration := 1800, recurring := true })] :=
  C6_round_trip_naive _ rfl rfl

/- Loading a snapshot with a malformed record (claim C4). -/

/-- Whether a JSON document is a mapping. -/
def JVal.isObj : JVal → Bool
  | .obj _ => true
  | _ => false

/-- A well-formed meeting whose record sits next to a corrupt one. -/
def mGood : Meeting :=
  { id := "good", title := "ok", platform := .enum .ZOOM,
    start_time := ⟨500, false⟩, duration := 60 }

/-- A snapshot with one well-formed record and one record whose duration
is null: timedelta(seconds=None) raises TypeError inside the load loop. -/
def corruptSnapshot : JVal :=
  .obj [("good", recordJVal mGood),
        ("bad", .obj [("id", .str "bad"), ("title", .str "broken"),
                      ("platform", .str "zoom"), ("start_time", .time ⟨700, false⟩),
                      ("duration", .null)])]

/-- Claim C4 counterexample: a single malformed record is NOT skipped
individually. The sibling record parses fine on its own, yet loading the
snapshot yields the empty registry: the one try/except around the whole
loop (meeting_manager.py 248-283) resets self.meetings to {}. -/
theorem C4_counterexample :
    parseRecord (recordJVal mGood) = some mGood ∧
    loadMeetings corruptSnapshot = [] := by
  exact ⟨rfl, rfl⟩

/-- An exception from any record empties the whole load result. -/
theorem loadLoop_bad (entries : List (String × JVal))
    (acc : List (String × Meeting))
    (h : ∃ p ∈ entries, parseRecord p.2 = none) :
    loadLoop entries acc = [] := by
  induction entries generalizing acc with
  | nil => simp at h
  | cons kd rest ih =>
    obtain ⟨k, d⟩ := kd
    cases hp : parseRecord d with
    | none => simp [loadLoop, hp]
    | some m =>
      obtain ⟨q, hq, hqn⟩ := h
      rcases List.mem_cons.mp hq with hhead | htail
      · subst hhead
        simp only [hp] at hqn
        exact absurd hqn (by simp)
      · simp only [loadLoop, hp]
        split
        · rfl
        · exact ih _ ⟨q, htail, hqn⟩

/-- Claim C4 amended: loading never crashes, but the fallback to the
empty registry is not limited to top-level parse failures — any record on
which parsing raises (and any non-mapping document) makes the Store fall
back to the empty registry, discarding the well-formed records too. -/
theorem C4_amended :
    (∀ entries : List (String × JVal),
      (∃ p ∈ entries, parseRecord p.2 = none) →
        loadMeetings (.obj entries) = []) ∧
    (∀ j : JVal, JVal.isObj j = false → loadMeetings j = []) := by
  constructor
  · intro entries h
    exact loadLoop_bad entries [] h
  · intro j hj
    cases j <;> first | rfl | simp [JVal.isObj] at hj

/-- Claim C4 witness: the amended fallback at a one-record snapshot whose
record is null. -/
theorem C4_witness : loadMeetings (JVal.obj [("only", JVal.null)]) = [] :=
  C4_amended.1 [("only", .null)] ⟨("only", .null), by simp, rfl⟩

/- Registration-time validation (claim C1). -/

/-- The teams meeting of the spec scenario: url and meeting_id both
unset. -/
def m2Teams : Meeting :=
  { id := "m2", title := "standup", platform := .enum .TEAMS,
    start_time := ⟨1000000, false⟩, duration := 1800 }

/-- Claim C1 counterexample: Add does not reject the URL-less teams
meeting — add_meeting only checks id uniqueness (meeting_manager.py
46-47), so the call returns true and the meeting is persisted and
scheduled. -/
theorem C1_counterexample :
    (addMeeting emptyStore m2Teams 0).1 = true ∧
    (addMeeting emptyStore m2Teams 0).2.meetings.lookup "m2" = some m2Teams ∧
    (addMeeting emptyStore m2Teams 0).2.saves = 1 := by
  exact ⟨rfl, rfl, rfl⟩

/-- Claim C1 amended: Add performs no url/meeting_id validation at
registration — any teams meeting with a fresh id and no URL is accepted,
persisted and handed to the scheduler, and the rejection only happens at
join time: the teams browser join without a URL returns failure
(platform_handlers.py 733-736). -/
theorem C1_amended (s : MState) (m : Meeting) (now : Int)
    (hfresh : s.meetings.lookup m.id = none) (hurl : m.url = none) :
    (addMeeting s m now).1 = true ∧
    (addMeeting s m now).2.meetings.lookup m.id = some m ∧
    ∀ (mid pwd : Option String) (env : HandlerEnv) (st : HState),
      (joinViaBrowser .TEAMS m.url mid pwd env st).1 = false := by
  refine ⟨by simp [addMeeting, hfresh], ?_, ?_⟩
  · have hm1 : (addMeeting s m now).2.meetings = s.meetings ++ [(m.id, m)] := by
      simp [addMeeting, hfresh, scheduleMeeting_meetings]
    rw [hm1, lookup_append_of_none m.id s.meetings _ hfresh]
    simp [List.lookup]
  · intro mid pwd env st
    rw [hurl]
    rfl

/-- Claim C1 witness: the amended statement at the scenario meeting. -/
theorem C1_witness :
    (addMeeting emptyStore m2Teams 500).1 = true ∧
    (joinViaBrowser .TEAMS m2Teams.url none none envQuiet
      { driver := true, permsGranted := true }).1 = false :=
  ⟨(C1_amended emptyStore m2Teams 500 rfl rfl).1,
   (C1_amended emptyStore m2Teams 500 rfl rfl).2.2 none none envQuiet
     { driver := true, permsGranted := true }⟩

/- The discarded verify_account_match result (claims C2 and C5). -/

/-- Collaborators for an abort-decision attempt: a mismatched account is
logged in and the caller cancels the mismatch dialog. -/
def envAbort : HandlerEnv :=
  { appInstalled := false, currentEmail := some "b@x.com",
    decision := .abort, credential := fun _ => none, logoutOk := true,
    primaryLoginOk := true, googleLoginOk := true, browserJoinOk := true,
    appLaunchOk := true }

/-- The teams join attempt of the abort scenario. -/
def c2run : Bool × HState × List HEvent :=
  joinMeeting .TEAMS (some "https://teams.microsoft.com/l/meetup-join/xyz")
    none none (some "a@x.com") envAbort

/-- Claim C2: with required_email set, a mismatched account and an abort
decision, join_meeting does NOT return failure: the dialog was raised and
answered Cancel, but verify_account_match's False is discarded
(platform_handlers.py 411) and the browser join proceeds and succeeds.
Only the teardown half of the claim holds: the controller handle is
cleaned up in the finally block before returning. -/
theorem C2_code_bug :
    c2run.1 = true ∧
    c2run.2.2.count (.decisionPrompt "b@x.com" "a@x.com") = 1 ∧
    c2run.2.2.count .cleanupDriver = 1 ∧
    c2run.2.1.driver = false := by
  exact ⟨rfl, rfl, rfl, rfl⟩

/-- Collaborators for the switch-without-credential scenario: a mismatched
account is logged in, the caller chooses to switch, and the credential
store has no secret for any email. -/
def envSwitchNoCred : HandlerEnv :=
  { appInstalled := false, currentEmail := some "b@x.com",
    decision := .switchAccount, credential := fun _ => none,
    logoutOk := true, primaryLoginOk := true, googleLoginOk := true,
    browserJoinOk := true, appLaunchOk := true }

/-- The zoom join attempt of the credential-missing scenario. -/
def c5run : Bool × HState × List HEvent :=
  joinMeeting .ZOOM (some "https://zoom.us/j/123") none none
    (some "a@x.com") envSwitchNoCred

/-- Claim C5: the credential lookup for the required email fails
(_handle_login returns False with no sign-in navigation, platform_handlers
464-468), but the attempt does not stop there: join_meeting discards the
False (line 411) and navigates to the meeting anyway, returning success. -/
theorem C5_code_bug :
    c5run.2.2.count (.credMissing "a@x.com") = 1 ∧
    c5run.2.2.count (.navMeeting "https://zoom.us/j/123") = 1 ∧
    c5run.1 = true := by
  exact ⟨rfl, rfl, rfl⟩

/- The daily repeating trigger (claim C3). -/

/-- A meeting two days ahead: start at epoch + 208800 s (day 2, 10:00),
so its intended fire time is 208740 s (day 2, 09:59). -/
def m3Daily : Meeting :=
  { id := "m3", title := "weekly sync", platform := .enum .ZOOM,
    start_time := ⟨208800, false⟩, duration := 1800,
    url := some "https://zoom.us/j/99" }

/-- The state after registering m3Daily at epoch time 0. -/
def c3s0 : MState := (addMeeting emptyStore m3Daily 0).2

/-- First scheduler wake past 09:59 on day 0 (36000 s = 10:00). -/
def c3w1 : MState × List MEvent := runPending c3s0 36000 envQuiet

/-- Scheduler wake past 09:59 on day 1 (122400 s). -/
def c3w2 : MState × List MEvent := runPending c3w1.1 122400 envQuiet

/-- Claim C3: the registered trigger is a daily repeating schedule job
keyed only by time-of-day, never retired. For a meeting two days ahead it
fires at the first wake past 09:59 on day 0 — two days BEFORE the
meeting's fire time — fires again the next day, and the job is still in
the registry afterwards. -/
theorem C3_code_bug :
    c3w1.2.count (.fired "m3") = 1 ∧
    c3w2.2.count (.fired "m3") = 1 ∧
    (36000 : Int) < m3Daily.start_time.seconds - 60 ∧
    c3w2.1.jobs.map SchedJob.tag = ["m3"] := by
  exact ⟨rfl, rfl, by decide, rfl⟩

/- No mismatch dialog without required_email (claim C8). -/

/-- Whether an event is the account-mismatch decision dialog. -/
def isPromptEvent : HEvent → Bool
  | .decisionPrompt _ _ => true
  | _ => false

/-- Whether a trace contains the account-mismatch decision dialog. -/
def hasPrompt (tr : List HEvent) : Bool := tr.any isPromptEvent

theorem anyPrompt_setup (st : HState) :
    (setupDriver st).2.any isPromptEvent = false := by
  unfold setupDriver
  split <;> rfl

theorem anyPrompt_preGrant (u : String) (st : HState) :
    (preGrantPermissions u st).2.any isPromptEvent = false := by
  unfold preGrantPermissions
  split <;> rfl

theorem anyPrompt_cleanup (st : HState) :
    (cleanupDriver st).2.any isPromptEvent = false := by
  unfold cleanupDriver
  split <;> rfl

theorem anyPrompt_browser (p : PlatformType) (url mid pwd : Option String)
    (env : HandlerEnv) (st : HState) :
    (joinViaBrowser p url mid pwd env st).2.2.any isPromptEvent = false := by
  unfold joinViaBrowser
  cases p <;>
    rcases htu : truthy url with _ | u <;>
    rcases htm : truthy mid with _ | mm <;>
    simp [htu, htm, List.any_append, anyPrompt_setup, anyPrompt_preGrant,
      isPromptEvent]

theorem anyPrompt_app (p : PlatformType) (url mid pwd : Option String)
    (env : HandlerEnv) (st : HState) :
    (joinViaApp p url mid pwd env st).2.2.any isPromptEvent = false := by
  unfold joinViaApp
  cases p with
  | GOOGLE_MEET => exact anyPrompt_browser _ url mid pwd env st
  | ZOOM =>
    rcases htu : truthy url with _ | u <;>
      rcases htm : truthy mid with _ | mm <;>
      simp only [htu, htm]
    · rfl
    all_goals
      split
      · rfl
      · exact anyPrompt_browser _ url mid pwd env st
  | TEAMS =>
    rcases htu : truthy url with _ | u <;> simp only [htu]
    · rfl
    · split
      · rfl
      · exact anyPrompt_browser _ url mid pwd env st

/-- Claim C8: a join attempt without required_email never raises the
account-mismatch decision dialog — neither on the app path nor on the
browser path, where verify_account_match is only reached under
`if required_email:` (platform_handlers.py 410-411). -/
theorem C8_no_prompt_without_required_email (p : PlatformType)
    (url mid pwd : Option String) (env : HandlerEnv) :
    hasPrompt (joinMeeting p url mid pwd none env).2.2 = false := by
  unfold hasPrompt joinMeeting
  cases hi : appInstalledFor p env
  · simp only [hi, Bool.false_eq_true, if_false, truthy, List.any_append,
      anyPrompt_setup, anyPrompt_preGrant, anyPrompt_browser,
      anyPrompt_cleanup, Bool.or_false, Bool.false_or, List.any_nil]
  · simp only [hi, if_true, List.any_append, anyPrompt_setup,
      anyPrompt_preGrant, anyPrompt_app, Bool.or_false, Bool.false_or,
      List.any_nil]
